import Mathlib

/-!
Verification of the Messages API of the goodmorning-app repository.

The backend (Express + node-postgres, file `src/unnamed/part_001`) is shallowly
embedded here:

* the `messages` table (SERIAL id, VARCHAR name/email, TEXT message, two
  timestamp columns both defaulting to CURRENT_TIMESTAMP of the inserting
  statement) is modelled as `Store`: a list of `Rec`ords plus the next SERIAL
  value and a logical clock supplying timestamps — within one INSERT statement
  both timestamp defaults evaluate to the same instant, so both columns of a
  fresh record carry the same clock value;
* JSON request-body values are modelled as `JSVal` (JSON numbers as `Int`;
  the float-only corner cases play no role in any claim below);
* JavaScript truthiness, the `.length` property, `.trim()` (the full
  ECMAScript whitespace set) and the `ToNumber` coercion applied by
  the `> 255` comparison are modelled explicitly (`truthy`, `jsLength`,
  `jsTrim`, `jsToNum`): `ToNumber` follows the `StringNumericLiteral`
  grammar (whitespace, signed decimals with fraction and exponent,
  `Infinity`, sign-less `0x`/`0o`/`0b` forms), arrays coerce through their
  `join` string and plain objects to `NaN`, with the comparison computed
  exactly in integer arithmetic on mantissa/power-of-ten pairs;
* PostgreSQL's parsing of an `int4` query parameter is modelled by
  `pgParseInt` (optional surrounding whitespace, optional sign, decimal
  digits, 32-bit range); any input it rejects makes the query throw, which
  the route handlers surface as HTTP 500;
* each route handler is a function from its inputs (environment string,
  a flag modelling an infrastructure failure of the database call, the
  store, the request) to the store after the request and the `Response`
  (status code plus JSON body). Handlers that never read `NODE_ENV` in the
  source take no environment argument.
-/

/-- A JSON value as delivered by `express.json()` (numbers as integers). -/
inductive JSVal where
  | null : JSVal
  | bool : Bool → JSVal
  | num : Int → JSVal
  | str : String → JSVal
  | arr : List JSVal → JSVal
  | obj : List (String × JSVal) → JSVal

/-- The destructured POST body `const { name, email, message } = req.body`;
`none` models an absent property (`undefined`). -/
structure ReqBody where
  name : Option JSVal
  email : Option JSVal
  message : Option JSVal

/-- One row of the `messages` table.  Timestamps are logical-clock values. -/
structure Rec where
  id : Int
  name : String
  email : String
  message : String
  created_at : Nat
  updated_at : Nat
deriving DecidableEq

/-- The `messages` table: rows in insertion order, the next SERIAL id, and a
logical clock that strictly increases at every insert. -/
structure Store where
  rows : List Rec
  nextId : Int
  now : Nat
deriving DecidableEq

/-- The empty store right after `initDb` on a fresh database. -/
def store0 : Store := { rows := [], nextId := 1, now := 0 }

/-- An HTTP response: status code and JSON body. -/
structure Response where
  status : Nat
  body : JSVal

/-- JavaScript truthiness of a JSON value (`!v` is `!truthy v`):
`false`, `0`, `""` and `null` are falsy; every array and object is truthy. -/
def truthy : JSVal → Bool
  | .null => false
  | .bool b => b
  | .num n => n != 0
  | .str s => s != ""
  | .arr _ => true
  | .obj _ => true

/-- Truthiness of a possibly-absent value (`undefined` is falsy). -/
def truthyOpt : Option JSVal → Bool
  | none => false
  | some v => truthy v

/-- C-locale `isspace`, the whitespace PostgreSQL `int4in` strips around an
integer parameter. -/
def isSpaceChar (c : Char) : Bool :=
  c == ' ' || c == '\t' || c == '\n' || c == '\r' || c == '\x0b' || c == '\x0c'

/-- Leading/trailing C-locale-whitespace removal on a character list. -/
def trimChars (cs : List Char) : List Char :=
  ((cs.dropWhile isSpaceChar).reverse.dropWhile isSpaceChar).reverse

/-- The ECMAScript WhiteSpace and LineTerminator characters, stripped both
by `String.prototype.trim` and around a `StringNumericLiteral`. -/
def isJsSpace (c : Char) : Bool :=
  c == ' ' || c == '\t' || c == '\n' || c == '\r' ||
  c == '\x0b' || c == '\x0c' || c == '\u00A0' || c == '\uFEFF' ||
  c == '\u1680' || ('\u2000' ≤ c && c ≤ '\u200A') ||
  c == '\u2028' || c == '\u2029' || c == '\u202F' ||
  c == '\u205F' || c == '\u3000'

/-- Leading/trailing JavaScript-whitespace removal on a character list. -/
def trimJsChars (cs : List Char) : List Char :=
  ((cs.dropWhile isJsSpace).reverse.dropWhile isJsSpace).reverse

/-- JavaScript `s.trim()`. -/
def jsTrim (s : String) : String := ⟨trimJsChars s.data⟩

/-- The `.length` property of a JSON value: a number for strings and arrays,
the `length` entry for objects, `undefined` (`none`) otherwise. -/
def jsLength : JSVal → Option JSVal
  | .str s => some (.num s.length)
  | .arr l => some (.num l.length)
  | .obj fields => (fields.find? (fun p => p.1 == "length")).map (fun p => p.2)
  | _ => none

/-- Decimal integer reading used to model numeric coercion of strings. -/
def digitsToNat (cs : List Char) : Nat :=
  cs.foldl (fun a c => a * 10 + (c.toNat - 48)) 0

/-- `cs` is a non-empty run of decimal digits. -/
def isDigits (cs : List Char) : Bool :=
  !cs.isEmpty && cs.all (fun c => c.isDigit)

/-- Signed decimal reading of a character list, `none` when malformed. -/
def readInt : List Char → Option Int
  | '-' :: rest => if isDigits rest then some (-(digitsToNat rest : Int)) else none
  | '+' :: rest => if isDigits rest then some (digitsToNat rest : Int) else none
  | cs => if isDigits cs then some (digitsToNat cs : Int) else none

/-- The result of JavaScript `ToNumber`: `NaN`, a signed infinity, or a
finite value `sci m e` denoting the exact decimal rational `m · 10 ^ e`
(every finite value arising from a JSON value in this model is of that
form), so the `> 255` comparison is computed exactly. -/
inductive JSNum where
  | nan : JSNum
  | inf : Bool → JSNum
  | sci : Int → Int → JSNum
deriving DecidableEq

/-- `10 ^ k` over the integers, by plain recursion. -/
def pow10 : Nat → Int
  | 0 => 1
  | k + 1 => 10 * pow10 k

/-- Whether `m · 10 ^ e > 255`, in exact integer arithmetic. -/
def gt255val (m e : Int) : Bool :=
  if 0 ≤ e then decide (255 < m * pow10 e.toNat)
  else decide (255 * pow10 (-e).toNat < m)

/-- Hexadecimal digit test, as accepted after a `0x`/`0X` prefix. -/
def isHexDigitCh (c : Char) : Bool :=
  c.isDigit || ('a' ≤ c && c ≤ 'f') || ('A' ≤ c && c ≤ 'F')

/-- Value of a hexadecimal digit. -/
def hexVal (c : Char) : Nat :=
  if c.isDigit then c.toNat - 48
  else if 'a' ≤ c && c ≤ 'f' then c.toNat - 87
  else c.toNat - 55

/-- Octal digit test, as accepted after a `0o`/`0O` prefix. -/
def isOctDigitCh (c : Char) : Bool := '0' ≤ c && c ≤ '7'

/-- Binary digit test, as accepted after a `0b`/`0B` prefix. -/
def isBinDigitCh (c : Char) : Bool := c == '0' || c == '1'

/-- Reads a non-empty all-digit run in base `b`, `none` otherwise. -/
def parseRadix (b : Nat) (isDig : Char → Bool) (v : Char → Nat) (cs : List Char) : Option Nat :=
  if !cs.isEmpty && cs.all isDig then some (cs.foldl (fun a c => a * b + v c) 0) else none

/-- The exponent part of a decimal string literal (after `e`/`E`). -/
def parseExpPart : List Char → Option Int
  | '+' :: r => if isDigits r then some (digitsToNat r : Int) else none
  | '-' :: r => if isDigits r then some (-(digitsToNat r : Int)) else none
  | r => if isDigits r then some (digitsToNat r : Int) else none

/-- An unsigned decimal string literal, per the ECMAScript
`StrUnsignedDecimalLiteral` grammar without the `Infinity` production:
`digits [. digits] [exp]` or `. digits [exp]`; the exact value is returned
as a mantissa/power-of-ten-exponent pair. -/
def parseUnsignedDec (cs : List Char) : Option (Int × Int) :=
  let ip := cs.takeWhile Char.isDigit
  match cs.dropWhile Char.isDigit with
  | [] => if ip.isEmpty then none else some ((digitsToNat ip : Int), 0)
  | '.' :: rest2 =>
    let fp := rest2.takeWhile Char.isDigit
    let rest3 := rest2.dropWhile Char.isDigit
    if ip.isEmpty && fp.isEmpty then none
    else
      let mant : Int := (digitsToNat (ip ++ fp) : Int)
      match rest3 with
      | [] => some (mant, -(fp.length : Int))
      | c :: rest4 =>
        if c == 'e' || c == 'E' then
          (parseExpPart rest4).map (fun ex => (mant, ex - (fp.length : Int)))
        else none
  | c :: rest2 =>
    if ip.isEmpty then none
    else if c == 'e' || c == 'E' then
      (parseExpPart rest2).map (fun ex => ((digitsToNat ip : Int), ex))
    else none

/-- A signless numeric literal body: `Infinity` or an unsigned decimal. -/
def decUnsigned (pos : Bool) (cs : List Char) : JSNum :=
  if cs = "Infinity".data then .inf pos
  else
    match parseUnsignedDec cs with
    | none => .nan
    | some me => .sci (if pos then me.1 else -me.1) me.2

/-- A signed decimal literal body (sign also applies to `Infinity`). -/
def decSigned : List Char → JSNum
  | '+' :: r => decUnsigned true r
  | '-' :: r => decUnsigned false r
  | cs => decUnsigned true cs

/-- Lifts a radix-prefixed integer reading into a `ToNumber` result. -/
def numOfRadix : Option Nat → JSNum
  | none => .nan
  | some n => .sci n 0

/-- JavaScript `ToNumber` on a string, per the `StringNumericLiteral`
grammar: surrounding whitespace, empty means `0`, a sign-less `0x`/`0o`/`0b`
radix form, or a signed decimal literal or `Infinity`; anything else is
`NaN`. -/
def strToNum (s : String) : JSNum :=
  match trimJsChars s.data with
  | [] => .sci 0 0
  | '0' :: c :: r =>
    if c == 'x' || c == 'X' then numOfRadix (parseRadix 16 isHexDigitCh hexVal r)
    else if c == 'o' || c == 'O' then numOfRadix (parseRadix 8 isOctDigitCh (fun d => d.toNat - 48) r)
    else if c == 'b' || c == 'B' then numOfRadix (parseRadix 2 isBinDigitCh (fun d => d.toNat - 48) r)
    else decSigned ('0' :: c :: r)
  | cs => decSigned cs

mutual
/-- `Array.prototype.join`s rendering of one element: `null` renders empty,
booleans as words, numbers in decimal, nested arrays recursively, plain
objects as `[object Object]`. -/
def jsJoinVal : JSVal → String
  | .null => ""
  | .bool b => if b then "true" else "false"
  | .num n => n.repr
  | .str s => s
  | .arr l => jsJoinList l
  | .obj _ => "[object Object]"

/-- `Array.prototype.join` with the default comma separator. -/
def jsJoinList : List JSVal → String
  | [] => ""
  | [v] => jsJoinVal v
  | v :: rest => jsJoinVal v ++ "," ++ jsJoinList rest
end

/-- JavaScript `ToNumber` on JSON values: `null` and booleans coerce to
`0`/`1`, numbers to themselves, strings through the string grammar, arrays
through their `join` string, and plain objects to `NaN` (their primitive
value is `[object Object]`). -/
def jsToNum : JSVal → JSNum
  | .null => .sci 0 0
  | .bool b => .sci (if b then 1 else 0) 0
  | .num n => .sci n 0
  | .str s => strToNum s
  | .arr l => strToNum (jsJoinList l)
  | .obj _ => .nan

/-- The test `v.length > 255` of the POST handler: `undefined` and `NaN`
compare as `false`, `+Infinity` as `true`. -/
def lenGt255 (v : JSVal) : Bool :=
  match jsLength v with
  | none => false
  | some lv =>
    match jsToNum lv with
    | .nan => false
    | .inf pos => pos
    | .sci m e => gt255val m e

/-- `v.length > 255` for a possibly-absent field (only reached when truthy,
hence present). -/
def lenGt255Opt : Option JSVal → Bool
  | none => false
  | some v => lenGt255 v

/-- PostgreSQL parsing of an `int4` parameter: optional surrounding
whitespace, optional sign, decimal digits, 32-bit range.  `none` means the
query raises an error (invalid syntax or out of range). -/
def pgParseInt (s : String) : Option Int :=
  match readInt (trimChars s.data) with
  | none => none
  | some v => if -2147483648 ≤ v ∧ v ≤ 2147483647 then some v else none

/-- JSON rendering of a stored record, as returned by the SQL `RETURNING` /
`SELECT` column lists (timestamps rendered as their clock values). -/
def recToJson (r : Rec) : JSVal :=
  .obj [("id", .num r.id), ("name", .str r.name), ("email", .str r.email),
        ("message", .str r.message), ("created_at", .num r.created_at),
        ("updated_at", .num r.updated_at)]

/-- Does a top-level field of a JSON object hold exactly the string `s`?
Used to express "the underlying error message reaches the client". -/
def objHasStrVal (v : JSVal) (s : String) : Bool :=
  match v with
  | .obj fields =>
    fields.any (fun p => match p.2 with | .str t => t == s | _ => false)
  | _ => false

/-- An error body of exactly the documented shape
`success:false, error:string, message:string` and nothing else. -/
def isErrorShape : JSVal → Bool
  | .obj [("success", .bool false), ("error", .str _), ("message", .str _)] => true
  | _ => false

/-- `POST /api/messages`.  Arguments: infrastructure-failure flag for the
INSERT, the store, the destructured body.  Returns the store after the
request and the response.  Mirrors the source handler: truthiness check on
the three fields, then the two untrimmed length checks, then
`INSERT … VALUES (name.trim(), email.trim(), message.trim()) RETURNING …`;
`.trim()` on a non-string throws and is caught by the surrounding
`try`/`catch` as a 500. -/
def postMessage (dbFail : Bool) (st : Store) (b : ReqBody) : Store × Response :=
  if !truthyOpt b.name || !truthyOpt b.email || !truthyOpt b.message then
    (st, { status := 400,
           body := .obj [("success", .bool false),
                         ("error", .str "Validation failed"),
                         ("message", .str "All fields (name, email, message) are required")] })
  else if lenGt255Opt b.name then
    (st, { status := 400,
           body := .obj [("success", .bool false),
                         ("error", .str "Validation failed"),
                         ("message", .str "Name must be less than 255 characters")] })
  else if lenGt255Opt b.email then
    (st, { status := 400,
           body := .obj [("success", .bool false),
                         ("error", .str "Validation failed"),
                         ("message", .str "Email must be less than 255 characters")] })
  else
    match b.name, b.email, b.message with
    | some (.str n), some (.str e), some (.str m) =>
      if dbFail then
        (st, { status := 500,
               body := .obj [("success", .bool false),
                             ("error", .str "Internal server error"),
                             ("message", .str "Failed to create message")] })
      else
        let r : Rec := { id := st.nextId, name := jsTrim n, email := jsTrim e,
                         message := jsTrim m, created_at := st.now, updated_at := st.now }
        ({ rows := st.rows ++ [r], nextId := st.nextId + 1, now := st.now + 1 },
         { status := 201,
           body := .obj [("success", .bool true),
                         ("message", .str "Message created successfully"),
                         ("data", recToJson r)] })
    | _, _, _ =>
      -- some field is truthy but not a string: `.trim()` throws, caught as 500
      (st, { status := 500,
             body := .obj [("success", .bool false),
                           ("error", .str "Internal server error"),
                           ("message", .str "Failed to create message")] })

/-- Convenience constructor for an all-string POST body. -/
def mkStrBody (n e m : String) : ReqBody :=
  { name := some (.str n), email := some (.str e), message := some (.str m) }

/-- Insertion of a record into a list sorted by `created_at` descending:
the comparison step of `ORDER BY created_at DESC`. -/
def insertDesc (r : Rec) : List Rec → List Rec
  | [] => [r]
  | x :: xs => if r.created_at ≤ x.created_at then x :: insertDesc r xs else r :: x :: xs

/-- `ORDER BY created_at DESC` over the stored rows (insertion sort). -/
def sortByDesc : List Rec → List Rec
  | [] => []
  | x :: xs => insertDesc x (sortByDesc xs)

/-- `GET /api/messages`.  Arguments: `NODE_ENV`, the `.message` of the error
object when the query fails, the failure flag, the store.  On failure the
source adds a `details` field holding the error message, but only in
development mode (`JSON.stringify` drops the `undefined` it gets otherwise). -/
def getAllMessages (env errMsg : String) (dbFail : Bool) (st : Store) : Response :=
  if dbFail then
    { status := 500,
      body := .obj ([("success", .bool false),
                     ("error", .str "Internal server error"),
                     ("message", .str "Failed to fetch messages")] ++
                    (if env == "development" then [("details", .str errMsg)] else [])) }
  else
    { status := 200,
      body := .obj [("success", .bool true),
                    ("count", .num st.rows.length),
                    ("data", .arr ((sortByDesc st.rows).map recToJson))] }

/-- `GET /api/messages/:id`.  The raw path segment is handed unparsed to
`WHERE id = $1`; a parameter PostgreSQL cannot read as `int4` makes the query
throw, caught as 500. -/
def getMessageById (dbFail : Bool) (st : Store) (idStr : String) : Response :=
  if dbFail then
    { status := 500,
      body := .obj [("success", .bool false),
                    ("error", .str "Internal server error"),
                    ("message", .str "Failed to fetch message")] }
  else
    match pgParseInt idStr with
    | none =>
      { status := 500,
        body := .obj [("success", .bool false),
                      ("error", .str "Internal server error"),
                      ("message", .str "Failed to fetch message")] }
    | some i =>
      match st.rows.find? (fun r => r.id == i) with
      | none =>
        { status := 404,
          body := .obj [("success", .bool false),
                        ("error", .str "Not found"),
                        ("message", .str "Message not found")] }
      | some r =>
        { status := 200,
          body := .obj [("success", .bool true), ("data", recToJson r)] }

/-- `DELETE /api/messages/:id`.  `DELETE FROM messages WHERE id = $1` with the
raw path segment; `rowCount === 0` maps to 404, otherwise 200. -/
def deleteMessageById (dbFail : Bool) (st : Store) (idStr : String) : Store × Response :=
  if dbFail then
    (st, { status := 500,
           body := .obj [("success", .bool false),
                         ("error", .str "Internal server error"),
                         ("message", .str "Failed to delete message")] })
  else
    match pgParseInt idStr with
    | none =>
      (st, { status := 500,
             body := .obj [("success", .bool false),
                           ("error", .str "Internal server error"),
                           ("message", .str "Failed to delete message")] })
    | some i =>
      if (st.rows.filter (fun r => r.id == i)).length == 0 then
        (st, { status := 404,
               body := .obj [("success", .bool false),
                             ("error", .str "Not found"),
                             ("message", .str "Message not found")] })
      else
        ({ st with rows := st.rows.filter (fun r => !(r.id == i)) },
         { status := 200,
           body := .obj [("success", .bool true),
                         ("message", .str "Message deleted successfully")] })

/-- `GET /api/test-db`.  Success values (server time, version, count) are
inputs, since they come from the database.  On failure the raw error message
is placed in the `message` field unconditionally. -/
def testDb (errMsg : String) (dbFail : Bool) (dbTime dbVersion : String) (cnt : Int) : Response :=
  if dbFail then
    { status := 500,
      body := .obj [("success", .bool false),
                    ("error", .str "Database connection failed"),
                    ("message", .str errMsg)] }
  else
    { status := 200,
      body := .obj [("success", .bool true),
                    ("database", .obj [("connected", .bool true),
                                       ("time", .str dbTime),
                                       ("version", .str dbVersion)]),
                    ("messages", .obj [("count", .num cnt)])] }

/-- `GET /api/check-tables`.  Success values come from `information_schema`.
On failure the body is only `success:false, error:<raw message>` — no
`message` field. -/
def checkTables (errMsg : String) (dbFail : Bool) (tables cols : JSVal) : Response :=
  if dbFail then
    { status := 500,
      body := .obj [("success", .bool false), ("error", .str errMsg)] }
  else
    { status := 200,
      body := .obj [("success", .bool true),
                    ("tables", tables), ("messages_columns", cols)] }

/-- The fallback 404 handler for unmatched routes. -/
def routeNotFound (path : String) : Response :=
  { status := 404,
    body := .obj [("success", .bool false),
                  ("error", .str "Not found"),
                  ("message", .str ("Route " ++ path ++ " not found"))] }

/-- The global error handler: any exception escaping a route maps to 500. -/
def unhandled : Response :=
  { status := 500,
    body := .obj [("success", .bool false),
                  ("error", .str "Internal server error"),
                  ("message", .str "Something went wrong")] }

/-- Invariant of every store reachable from `store0`: row ids are below the
next SERIAL value and pairwise distinct, timestamps are below the clock, and
rows are listed in strictly increasing `created_at` order (insertion order). -/
def WF (st : Store) : Prop :=
  (∀ r ∈ st.rows, r.id < st.nextId) ∧
  (∀ r ∈ st.rows, r.created_at < st.now) ∧
  st.rows.Pairwise (fun a b => a.created_at < b.created_at) ∧
  st.rows.Pairwise (fun a b => a.id ≠ b.id)

instance (st : Store) : Decidable (WF st) := by
  unfold WF; infer_instance

/-- The record a successful insert builds from store `st` and inputs. -/
def newRec (st : Store) (n e m : String) : Rec :=
  { id := st.nextId, name := jsTrim n, email := jsTrim e, message := jsTrim m,
    created_at := st.now, updated_at := st.now }

/-- The store after a successful insert. -/
def insertedStore (st : Store) (n e m : String) : Store :=
  { rows := st.rows ++ [newRec st n e m], nextId := st.nextId + 1, now := st.now + 1 }

/-- Folding a sequence of POST requests (all-string bodies) over a store. -/
def insertSeq (st : Store) (l : List (String × String × String)) : Store :=
  l.foldl (fun s t => (postMessage false s (mkStrBody t.1 t.2.1 t.2.2)).1) st

/-- A `(name, email, message)` triple the POST handler accepts and stores. -/
def validTriple (t : String × String × String) : Prop :=
  jsTrim t.1 ≠ "" ∧ jsTrim t.2.1 ≠ "" ∧ jsTrim t.2.2 ≠ "" ∧
  t.1.length ≤ 255 ∧ t.2.1.length ≤ 255

instance (t : String × String × String) : Decidable (validTriple t) := by
  unfold validTriple; infer_instance

/-- The records a sequence of successful inserts appends, starting from
SERIAL value `i` and clock `c`. -/
def mkRecs (i : Int) (c : Nat) : List (String × String × String) → List Rec
  | [] => []
  | t :: rest =>
    { id := i, name := jsTrim t.1, email := jsTrim t.2.1, message := jsTrim t.2.2,
      created_at := c, updated_at := c } :: mkRecs (i + 1) (c + 1) rest

/-- Is the field (after destructuring) a string value? -/
def isStrOpt : Option JSVal → Bool
  | some (.str _) => true
  | _ => false

/-- A response is either a success or carries an error body of the
documented shape. -/
def errRespOK (r : Response) : Bool :=
  decide (r.status < 400) || isErrorShape r.body

/-! ### Helper lemmas -/

lemma jsTrim_ne_empty {s : String} (h : jsTrim s ≠ "") : s ≠ "" := by
  intro hs
  exact h (by rw [hs]; rfl)

lemma truthy_str {s : String} (h : s ≠ "") : truthy (.str s) = true := by
  simpa [truthy] using h

lemma lenGt255_str (s : String) : lenGt255 (.str s) = decide (255 < s.length) := by
  show gt255val (s.length : Int) 0 = decide (255 < s.length)
  unfold gt255val
  rw [if_pos le_rfl]
  simp only [Int.toNat_zero, pow10, mul_one]
  by_cases h : 255 < s.length
  · rw [decide_eq_true (by omega), decide_eq_true h]
  · rw [decide_eq_false (by omega), decide_eq_false h]

lemma lenGt255_str_false {s : String} (h : s.length ≤ 255) :
    lenGt255 (.str s) = false := by
  rw [lenGt255_str]
  exact decide_eq_false (by omega)

/-- Reduction of a POST request with a valid all-string body. -/
lemma postMessage_valid (st : Store) (n e m : String)
    (hn : jsTrim n ≠ "") (he : jsTrim e ≠ "") (hm : jsTrim m ≠ "")
    (hln : n.length ≤ 255) (hle : e.length ≤ 255) :
    postMessage false st (mkStrBody n e m) =
      (insertedStore st n e m,
       { status := 201,
         body := .obj [("success", .bool true),
                       ("message", .str "Message created successfully"),
                       ("data", recToJson (newRec st n e m))] }) := by
  unfold postMessage mkStrBody
  simp only [truthyOpt, truthy_str (jsTrim_ne_empty hn), truthy_str (jsTrim_ne_empty he),
    truthy_str (jsTrim_ne_empty hm), lenGt255Opt, lenGt255_str_false hln,
    lenGt255_str_false hle, Bool.not_true, Bool.or_self, Bool.false_or, if_false]
  rfl

/-- A successful insert preserves the store invariant. -/
lemma wf_insertedStore (st : Store) (n e m : String) (hwf : WF st) :
    WF (insertedStore st n e m) := by
  obtain ⟨h1, h2, h3, h4⟩ := hwf
  refine ⟨?_, ?_, ?_, ?_⟩ <;>
    simp only [insertedStore, newRec, List.mem_append, List.mem_singleton,
      List.pairwise_append, List.pairwise_singleton]
  · rintro r (hr | rfl)
    · exact lt_trans (h1 r hr) (lt_add_one _)
    · exact lt_add_one _
  · rintro r (hr | rfl)
    · exact Nat.lt_succ_of_lt (h2 r hr)
    · exact Nat.lt_succ_self _
  · exact ⟨h3, trivial, fun a ha b hb => hb ▸ h2 a ha⟩
  · exact ⟨h4, trivial, fun a ha b hb => hb ▸ ne_of_lt (h1 a ha)⟩

lemma insertDesc_append (r : Rec) (l : List Rec)
    (h : ∀ x ∈ l, r.created_at ≤ x.created_at) :
    insertDesc r l = l ++ [r] := by
  induction l with
  | nil => rfl
  | cons x xs ih =>
    rw [insertDesc, if_pos (h x (List.mem_cons_self _ _)),
      ih (fun y hy => h y (List.mem_cons_of_mem _ hy))]
    rfl

lemma sortByDesc_of_ascending (l : List Rec)
    (h : l.Pairwise (fun a b => a.created_at < b.created_at)) :
    sortByDesc l = l.reverse := by
  induction l with
  | nil => rfl
  | cons x xs ih =>
    obtain ⟨hx, hxs⟩ := List.pairwise_cons.mp h
    rw [sortByDesc, ih hxs,
      insertDesc_append x xs.reverse
        (fun y hy => le_of_lt (hx y (List.mem_reverse.mp hy))),
      List.reverse_cons]

lemma find?_id_of_mem {l : List Rec} {r : Rec} {i : Int}
    (hdist : l.Pairwise (fun a b => a.id ≠ b.id)) (hr : r ∈ l) (hid : r.id = i) :
    l.find? (fun x => x.id == i) = some r := by
  induction l with
  | nil => cases hr
  | cons a t ih =>
    obtain ⟨ha, ht⟩ := List.pairwise_cons.mp hdist
    rcases List.mem_cons.mp hr with rfl | h
    · exact List.find?_cons_of_pos _ (by simpa using hid)
    · have hne : (a.id == i) = false := by
        simpa using hid ▸ ha r h
      rw [List.find?_cons, hne]
      exact ih ht h

lemma find?_id_of_none {l : List Rec} {i : Int}
    (h : ∀ r ∈ l, r.id ≠ i) :
    l.find? (fun x => x.id == i) = none := by
  rw [List.find?_eq_none]
  intro x hx
  simpa using h x hx

/-- Characterisation of a sequence of valid inserts: the rows are appended in
insertion order with consecutive ids and clock values, and the invariant is
preserved. -/
lemma insertSeq_spec (l : List (String × String × String)) :
    ∀ st : Store, WF st → (∀ t ∈ l, validTriple t) →
    (insertSeq st l).rows = st.rows ++ mkRecs st.nextId st.now l ∧
    (insertSeq st l).nextId = st.nextId + l.length ∧
    (insertSeq st l).now = st.now + l.length ∧
    WF (insertSeq st l) := by
  induction l with
  | nil =>
    intro st hwf _
    exact ⟨by simp [insertSeq, mkRecs], by simp [insertSeq], by simp [insertSeq], hwf⟩
  | cons t rest ih =>
    intro st hwf hv
    obtain ⟨hn, he, hm, hl1, hl2⟩ := hv t (List.mem_cons_self _ _)
    have hstep : insertSeq st (t :: rest) = insertSeq (insertedStore st t.1 t.2.1 t.2.2) rest := by
      simp only [insertSeq, List.foldl_cons,
        postMessage_valid st t.1 t.2.1 t.2.2 hn he hm hl1 hl2]
    have hwf' := wf_insertedStore st t.1 t.2.1 t.2.2 hwf
    obtain ⟨h1, h2, h3, h4⟩ :=
      ih (insertedStore st t.1 t.2.1 t.2.2) hwf' (fun x hx => hv x (List.mem_cons_of_mem _ hx))
    rw [hstep]
    refine ⟨?_, ?_, ?_, h4⟩
    · rw [h1]; simp [insertedStore, mkRecs, newRec]
    · rw [h2]; simp [insertedStore]; omega
    · rw [h3]; simp [insertedStore]; omega

lemma mkRecs_length (l : List (String × String × String)) :
    ∀ i c, (mkRecs i c l).length = l.length := by
  induction l with
  | nil => intro i c; rfl
  | cons t rest ih => intro i c; simp [mkRecs, ih]

/-! ### Claims -/

/-- C2: for every well-formed store and every input whose three fields are
non-empty after trimming with name and email at most 255 characters, the POST
handler answers 201 with the full stored record, the stored fields are the
trimmed inputs, the assigned id is the next SERIAL value (strictly above
every previously assigned id, and the SERIAL counter advances, so ids are
unique and strictly increasing across any sequence of successful inserts),
and `created_at = updated_at`. -/
theorem c2_insert_valid (st : Store) (n e m : String) (hwf : WF st)
    (hn : jsTrim n ≠ "") (he : jsTrim e ≠ "") (hm : jsTrim m ≠ "")
    (hln : n.length ≤ 255) (hle : e.length ≤ 255) :
    (postMessage false st (mkStrBody n e m)).2.status = 201 ∧
    (postMessage false st (mkStrBody n e m)).2.body =
      .obj [("success", .bool true), ("message", .str "Message created successfully"),
            ("data", recToJson (newRec st n e m))] ∧
    (newRec st n e m).name = jsTrim n ∧
    (newRec st n e m).email = jsTrim e ∧
    (newRec st n e m).message = jsTrim m ∧
    (newRec st n e m).created_at = (newRec st n e m).updated_at ∧
    (postMessage false st (mkStrBody n e m)).1.rows = st.rows ++ [newRec st n e m] ∧
    (∀ r ∈ st.rows, r.id < (newRec st n e m).id) ∧
    (postMessage false st (mkStrBody n e m)).1.nextId = st.nextId + 1 ∧
    WF (postMessage false st (mkStrBody n e m)).1 := by
  have h := postMessage_valid st n e m hn he hm hln hle
  rw [h]
  exact ⟨rfl, rfl, rfl, rfl, rfl, rfl, rfl, hwf.1, rfl, wf_insertedStore st n e m hwf⟩

theorem c2_insert_valid_witness :
    WF store0 ∧ jsTrim " Ada " ≠ "" ∧
    (postMessage false store0 (mkStrBody " Ada " "a@b.com" "hi")).2.status = 201 :=
  ⟨by decide, by decide,
   (c2_insert_valid store0 " Ada " "a@b.com" "hi" (by decide) (by decide) (by decide)
     (by decide) (by decide) (by decide)).1⟩

/-- C6: whenever POST answers with a validation error (400), the store is
untouched and a subsequent listing is exactly what it was before the call. -/
theorem c6_validation_no_write (f : Bool) (st : Store) (b : ReqBody) (env errMsg : String)
    (h : (postMessage f st b).2.status = 400) :
    (postMessage f st b).1 = st ∧
    getAllMessages env errMsg false (postMessage f st b).1 = getAllMessages env errMsg false st := by
  suffices hst : (postMessage f st b).1 = st by
    exact ⟨hst, by rw [hst]⟩
  revert h
  unfold postMessage
  split
  · intro _; rfl
  split
  · intro _; rfl
  split
  · intro _; rfl
  split
  · split
    · intro _; rfl
    · intro hc; simp at hc
  · intro _; rfl

theorem c6_validation_no_write_witness :
    (postMessage false store0 (mkStrBody "" "a@b.com" "hi")).2.status = 400 ∧
    (postMessage false store0 (mkStrBody "" "a@b.com" "hi")).1 = store0 :=
  ⟨by decide,
   (c6_validation_no_write false store0 (mkStrBody "" "a@b.com" "hi") "production" "x"
     (by decide)).1⟩

/-- C9: an `:id` path segment PostgreSQL cannot read as an `int4` (in
particular any non-integer literal) makes the parameterised query throw, so
GET and DELETE by id answer 500 — not 404 — and the store is unchanged. -/
theorem c9_invalid_id_500 (st : Store) (s : String) (hs : pgParseInt s = none) :
    (getMessageById false st s).status = 500 ∧
    (deleteMessageById false st s).2.status = 500 ∧
    (deleteMessageById false st s).1 = st := by
  simp [getMessageById, deleteMessageById, hs]

theorem c9_invalid_id_500_witness :
    pgParseInt "abc" = none ∧ (getMessageById false store0 "abc").status = 500 :=
  ⟨by decide, (c9_invalid_id_500 store0 "abc" (by decide)).1⟩

/-- C1 counterexample: a name consisting only of whitespace is empty after
trimming, so the claim demands a 400; the handler's truthiness check does not
trim, the request succeeds with 201, and the record is stored with an empty
name. -/
theorem c1_counterexample :
    (postMessage false store0 (mkStrBody " " "a@b.com" "hi")).2.status = 201 ∧
    (postMessage false store0 (mkStrBody " " "a@b.com" "hi")).1.rows =
      [{ id := 1, name := "", email := "a@b.com", message := "hi",
         created_at := 0, updated_at := 0 }] := by decide

/-- C1 (amended): POST answers 400 exactly when some field is missing or
falsy — for string fields, the empty string WITHOUT trimming — or name or
email is longer than 255 characters BEFORE trimming; whitespace-only fields
pass validation. -/
theorem c1_validation_iff_untrimmed (f : Bool) (st : Store) (n e m : String) (b : ReqBody)
    (hmiss : b.name = none ∨ b.email = none ∨ b.message = none) :
    ((postMessage f st (mkStrBody n e m)).2.status = 400 ↔
      (n = "" ∨ e = "" ∨ m = "" ∨ 255 < n.length ∨ 255 < e.length)) ∧
    (postMessage f st b).2.status = 400 := by
  constructor
  · by_cases h1 : n = ""
    · have hs : (postMessage f st (mkStrBody n e m)).2.status = 400 := by
        simp [postMessage, mkStrBody, truthyOpt, truthy, h1]
      exact iff_of_true hs (Or.inl h1)
    · by_cases h2 : e = ""
      · have hs : (postMessage f st (mkStrBody n e m)).2.status = 400 := by
          simp [postMessage, mkStrBody, truthyOpt, truthy, h2]
        exact iff_of_true hs (Or.inr (Or.inl h2))
      · by_cases h3 : m = ""
        · have hs : (postMessage f st (mkStrBody n e m)).2.status = 400 := by
            simp [postMessage, mkStrBody, truthyOpt, truthy, h3]
          exact iff_of_true hs (Or.inr (Or.inr (Or.inl h3)))
        · by_cases h4 : 255 < n.length
          · have hl : lenGt255 (.str n) = true := by
              rw [lenGt255_str]
              exact decide_eq_true h4
            have hs : (postMessage f st (mkStrBody n e m)).2.status = 400 := by
              simp [postMessage, mkStrBody, truthyOpt, truthy, h1, h2, h3, lenGt255Opt, hl]
            exact iff_of_true hs (Or.inr (Or.inr (Or.inr (Or.inl h4))))
          · have hl : lenGt255 (.str n) = false := by
              rw [lenGt255_str]
              exact decide_eq_false h4
            by_cases h5 : 255 < e.length
            · have hl2 : lenGt255 (.str e) = true := by
                rw [lenGt255_str]
                exact decide_eq_true h5
              have hs : (postMessage f st (mkStrBody n e m)).2.status = 400 := by
                simp [postMessage, mkStrBody, truthyOpt, truthy, h1, h2, h3, lenGt255Opt, hl, hl2]
              exact iff_of_true hs (Or.inr (Or.inr (Or.inr (Or.inr h5))))
            · have hl2 : lenGt255 (.str e) = false := by
                rw [lenGt255_str]
                exact decide_eq_false h5
              have hs : (postMessage f st (mkStrBody n e m)).2.status = if f then 500 else 201 := by
                cases f <;>
                  simp [postMessage, mkStrBody, truthyOpt, truthy, h1, h2, h3, lenGt255Opt, hl, hl2]
              rw [hs]
              cases f <;> simp [h1, h2, h3, h4, h5]
  · rcases hmiss with h | h | h <;> simp [postMessage, truthyOpt, h]

theorem c1_validation_iff_untrimmed_witness :
    ((postMessage false store0 (mkStrBody "" "a@b.com" "hi")).2.status = 400 ↔
      ("" = "" ∨ "a@b.com" = "" ∨ "hi" = "" ∨ 255 < "".length ∨ 255 < "a@b.com".length)) ∧
    (postMessage false store0 { name := none, email := some (.str "a@b.com"),
                                message := some (.str "hi") }).2.status = 400 :=
  c1_validation_iff_untrimmed false store0 "" "a@b.com" "hi"
    { name := none, email := some (.str "a@b.com"), message := some (.str "hi") }
    (Or.inl rfl)

set_option maxRecDepth 4096 in
/-- C10 counterexample: an array of 256 elements is a truthy non-string
value, yet supplying it as `name` does not reach `.trim()`: its `.length`
is 256, the length check fires, and the request answers 400, not 500. -/
theorem c10_counterexample :
    (postMessage false store0
      { name := some (.arr (List.replicate 256 (.num 1))),
        email := some (.str "a@b.com"), message := some (.str "hi") }).2.status = 400 := by
  decide

/-- C10 (amended): for every body whose three fields are truthy and whose
name and email do not trip the `> 255` length test (as is the case for
numbers, booleans, objects without a large `length` entry, and arrays of at
most 255 elements), if at least one field is not a string then the presence
check passes, `.trim()` throws, and the request answers 500 with the store
unchanged. -/
theorem c10_nonstring_truthy_500 (st : Store) (b : ReqBody)
    (h1 : truthyOpt b.name = true) (h2 : truthyOpt b.email = true)
    (h3 : truthyOpt b.message = true)
    (h4 : lenGt255Opt b.name = false) (h5 : lenGt255Opt b.email = false)
    (h6 : isStrOpt b.name = false ∨ isStrOpt b.email = false ∨ isStrOpt b.message = false) :
    (postMessage false st b).2.status = 500 ∧ (postMessage false st b).1 = st := by
  unfold postMessage
  simp only [h1, h2, h3, h4, h5, Bool.not_true, Bool.or_self, Bool.false_or, if_false,
    Bool.false_eq_true, if_neg, not_false_eq_true]
  split
  · next nn ee mm hn he hm =>
    exfalso
    rcases h6 with h | h | h
    · rw [hn] at h; simp [isStrOpt] at h
    · rw [he] at h; simp [isStrOpt] at h
    · rw [hm] at h; simp [isStrOpt] at h
  · exact ⟨rfl, rfl⟩

/-- C3: listing a well-formed store answers 200 with every stored record in
strictly descending `created_at` order — the reverse of insertion order —
and an empty store yields `count:0, data:[]` with success; moreover,
inserting any sequence of valid records into the empty store and then
listing returns exactly those records in reverse insertion order. -/
theorem c3_list_desc (env errMsg : String) (st : Store) (hwf : WF st)
    (l : List (String × String × String)) (hl : ∀ t ∈ l, validTriple t) :
    (getAllMessages env errMsg false st).status = 200 ∧
    (getAllMessages env errMsg false st).body =
      .obj [("success", .bool true), ("count", .num st.rows.length),
            ("data", .arr ((st.rows.map recToJson).reverse))] ∧
    (sortByDesc st.rows).Pairwise (fun a b => b.created_at < a.created_at) ∧
    (st.rows = [] → (getAllMessages env errMsg false st).body =
      .obj [("success", .bool true), ("count", .num 0), ("data", .arr [])]) ∧
    (getAllMessages env errMsg false (insertSeq store0 l)).body =
      .obj [("success", .bool true), ("count", .num l.length),
            ("data", .arr (((mkRecs 1 0 l).map recToJson).reverse))] := by
  have hsort := sortByDesc_of_ascending st.rows hwf.2.2.1
  refine ⟨rfl, ?_, ?_, ?_, ?_⟩
  · simp [getAllMessages, hsort, List.map_reverse]
  · rw [hsort]
    exact List.pairwise_reverse.mpr hwf.2.2.1
  · intro h
    simp [getAllMessages, h, sortByDesc]
  · obtain ⟨hr, _, _, hwf2⟩ := insertSeq_spec l store0 (by decide) hl
    have hrows : (insertSeq store0 l).rows = mkRecs 1 0 l := by
      simpa [store0] using hr
    have hsort2 := sortByDesc_of_ascending _ hwf2.2.2.1
    rw [hrows] at hsort2
    simp [getAllMessages, hrows, hsort2, List.map_reverse, mkRecs_length]

theorem c3_list_desc_witness :
    (getAllMessages "production" "x" false
      (insertSeq store0 [("Ada", "a@b.com", "hi"), ("Bob", "b@c.org", "yo")])).body =
      .obj [("success", .bool true), ("count", .num 2),
            ("data", .arr (((mkRecs 1 0 [("Ada", "a@b.com", "hi"), ("Bob", "b@c.org", "yo")]).map
              recToJson).reverse))] :=
  (c3_list_desc "production" "x" store0 (by decide)
    [("Ada", "a@b.com", "hi"), ("Bob", "b@c.org", "yo")] (by decide)).2.2.2.2

/-- C4: with a well-formed store and an id PostgreSQL accepts, GET by id
answers 200 with exactly the stored record carrying that id when one exists,
and 404 with the not-found body when none does. -/
theorem c4_get_by_id (st : Store) (s : String) (i : Int) (hwf : WF st)
    (hs : pgParseInt s = some i) :
    (∀ r ∈ st.rows, r.id = i →
      getMessageById false st s =
        { status := 200, body := .obj [("success", .bool true), ("data", recToJson r)] }) ∧
    ((∀ r ∈ st.rows, r.id ≠ i) →
      getMessageById false st s =
        { status := 404,
          body := .obj [("success", .bool false), ("error", .str "Not found"),
                        ("message", .str "Message not found")] }) := by
  constructor
  · intro r hr hid
    simp [getMessageById, hs, find?_id_of_mem hwf.2.2.2 hr hid]
  · intro h
    simp [getMessageById, hs, find?_id_of_none h]

theorem c4_get_by_id_witness :
    getMessageById false
      { rows := [{ id := 1, name := "Ada", email := "a@b.com", message := "hi",
                   created_at := 0, updated_at := 0 }], nextId := 2, now := 1 } "1" =
      { status := 200,
        body := .obj [("success", .bool true),
          ("data", recToJson { id := 1, name := "Ada", email := "a@b.com", message := "hi",
                               created_at := 0, updated_at := 0 })] } ∧
    getMessageById false store0 "999999" =
      { status := 404,
        body := .obj [("success", .bool false), ("error", .str "Not found"),
                      ("message", .str "Message not found")] } :=
  ⟨(c4_get_by_id
      { rows := [{ id := 1, name := "Ada", email := "a@b.com", message := "hi",
                   created_at := 0, updated_at := 0 }], nextId := 2, now := 1 }
      "1" 1 (by decide) (by decide)).1 _ (List.mem_singleton.mpr rfl) rfl,
   (c4_get_by_id store0 "999999" 999999 (by decide) (by decide)).2
     (fun r hr => absurd hr (List.not_mem_nil r))⟩

/-- C5: with a well-formed store and an id PostgreSQL accepts, DELETE on an
existing id answers 200 "deleted", removes exactly that record (it is gone,
every other record survives, a subsequent GET by that id answers 404, and a
repeated DELETE answers 404 leaving the store untouched), and DELETE on an
absent id answers 404 with the store unchanged. -/
theorem c5_delete_by_id (st : Store) (s : String) (i : Int) (hwf : WF st)
    (hs : pgParseInt s = some i) :
    (∀ r ∈ st.rows, r.id = i →
      ((deleteMessageById false st s).2.status = 200 ∧
       (deleteMessageById false st s).2.body =
         .obj [("success", .bool true), ("message", .str "Message deleted successfully")] ∧
       (deleteMessageById false st s).1.rows = st.rows.filter (fun x => !(x.id == i)) ∧
       r ∉ (deleteMessageById false st s).1.rows ∧
       (∀ x ∈ st.rows, x.id ≠ i → x ∈ (deleteMessageById false st s).1.rows) ∧
       (getMessageById false (deleteMessageById false st s).1 s).status = 404 ∧
       (deleteMessageById false (deleteMessageById false st s).1 s).2.status = 404 ∧
       (deleteMessageById false (deleteMessageById false st s).1 s).1 =
         (deleteMessageById false st s).1 ∧
       WF (deleteMessageById false st s).1)) ∧
    ((∀ r ∈ st.rows, r.id ≠ i) →
      (deleteMessageById false st s).2.status = 404 ∧
      (deleteMessageById false st s).1 = st) := by
  constructor
  · intro r hr hid
    have hmemf : r ∈ st.rows.filter (fun x => x.id == i) :=
      List.mem_filter.mpr ⟨hr, by simp [hid]⟩
    have hcond : ((st.rows.filter (fun x => x.id == i)).length == 0) = false := by
      have := List.length_pos.mpr (List.ne_nil_of_mem hmemf)
      simpa using Nat.pos_iff_ne_zero.mp this
    have hres : deleteMessageById false st s =
        ({ st with rows := st.rows.filter (fun x => !(x.id == i)) },
         { status := 200,
           body := .obj [("success", .bool true),
                         ("message", .str "Message deleted successfully")] }) := by
      simp [deleteMessageById, hs, hcond]
    have hnomem : ∀ x ∈ st.rows.filter (fun x => !(x.id == i)), x.id ≠ i := by
      intro x hx
      have := (List.mem_filter.mp hx).2
      simpa using this
    rw [hres]
    refine ⟨rfl, rfl, rfl, ?_, ?_, ?_, ?_, ?_, ?_⟩
    · intro hmem
      have := (List.mem_filter.mp hmem).2
      simp [hid] at this
    · intro x hx hxid
      exact List.mem_filter.mpr ⟨hx, by simpa using hxid⟩
    · simp [getMessageById, hs, find?_id_of_none hnomem]
    · have hfe : (st.rows.filter (fun x => !(x.id == i))).filter (fun x => x.id == i) = [] := by
        rw [List.filter_eq_nil_iff]
        intro a ha
        simpa using hnomem a ha
      simp [deleteMessageById, hs, hfe]
    · have hfe : (st.rows.filter (fun x => !(x.id == i))).filter (fun x => x.id == i) = [] := by
        rw [List.filter_eq_nil_iff]
        intro a ha
        simpa using hnomem a ha
      simp [deleteMessageById, hs, hfe]
    · obtain ⟨h1, h2, h3, h4⟩ := hwf
      have hsub := List.filter_sublist (l := st.rows) (p := fun x => !(x.id == i))
      exact ⟨fun x hx => h1 x (hsub.mem hx), fun x hx => h2 x (hsub.mem hx),
             h3.sublist hsub, h4.sublist hsub⟩
  · intro h
    have hfe : st.rows.filter (fun x => x.id == i) = [] := by
      rw [List.filter_eq_nil_iff]
      intro a ha
      simpa using h a ha
    constructor <;> simp [deleteMessageById, hs, hfe]

theorem c5_delete_by_id_witness :
    (deleteMessageById false
      { rows := [{ id := 1, name := "Ada", email := "a@b.com", message := "hi",
                   created_at := 0, updated_at := 0 }], nextId := 2, now := 1 } "1").2.status = 200 ∧
    (deleteMessageById false store0 "7").2.status = 404 :=
  ⟨((c5_delete_by_id
      { rows := [{ id := 1, name := "Ada", email := "a@b.com", message := "hi",
                   created_at := 0, updated_at := 0 }], nextId := 2, now := 1 }
      "1" 1 (by decide) (by decide)).1 _ (List.mem_singleton.mpr rfl) rfl).1,
   ((c5_delete_by_id store0 "7" 7 (by decide) (by decide)).2
     (fun r hr => absurd hr (List.not_mem_nil r))).1⟩

theorem c10_nonstring_truthy_500_witness :
    truthyOpt (some (.num 5)) = true ∧ isStrOpt (some (.num 5)) = false ∧
    (postMessage false store0
      { name := some (.num 5), email := some (.str "a@b.com"),
        message := some (.str "hi") }).2.status = 500 :=
  ⟨by decide, by decide,
   (c10_nonstring_truthy_500 store0
     { name := some (.num 5), email := some (.str "a@b.com"), message := some (.str "hi") }
     (by decide) (by decide) (by decide) (by decide) (by decide) (Or.inl (by decide))).1⟩

/-- C7 counterexample: the check-tables storage-error response is
`success:false, error:<raw message>` with no `message` field, so not every
error response of the layer has the documented three-field shape. -/
theorem c7_counterexample :
    (checkTables "boom" true .null .null).status = 500 ∧
    isErrorShape (checkTables "boom" true .null .null).body = false := by decide

/-- C7 (amended): every error response of the HTTP layer has exactly the
shape `success:false, error:string, message:string`, with exactly two
exceptions: the GET /api/messages storage error adds a fourth `details`
field in development mode, and the GET /api/check-tables storage error
omits the `message` field. -/
theorem c7_error_shapes (env errMsg dbTime dbVer s p : String) (cnt : Int)
    (f : Bool) (st : Store) (b : ReqBody) (tables cols : JSVal)
    (henv : env ≠ "development") :
    isErrorShape (getAllMessages env errMsg true st).body = true ∧
    (getAllMessages "development" errMsg true st).body =
      .obj [("success", .bool false), ("error", .str "Internal server error"),
            ("message", .str "Failed to fetch messages"), ("details", .str errMsg)] ∧
    errRespOK (getMessageById f st s) = true ∧
    errRespOK (postMessage f st b).2 = true ∧
    errRespOK (deleteMessageById f st s).2 = true ∧
    errRespOK (testDb errMsg f dbTime dbVer cnt) = true ∧
    errRespOK (routeNotFound p) = true ∧
    errRespOK unhandled = true ∧
    (checkTables errMsg true tables cols).body =
      .obj [("success", .bool false), ("error", .str errMsg)] := by
  have hdev : (env == "development") = false := beq_eq_false_iff_ne.mpr henv
  refine ⟨?_, ?_, ?_, ?_, ?_, ?_, rfl, rfl, rfl⟩
  · simp [getAllMessages, hdev, isErrorShape]
  · simp [getAllMessages]
  · cases f
    · rcases hp : pgParseInt s with _ | i
      · simp [getMessageById, errRespOK, hp, isErrorShape]
      · rcases hf : st.rows.find? (fun r => r.id == i) with _ | r <;>
          simp [getMessageById, errRespOK, hp, hf, isErrorShape]
    · simp [getMessageById, errRespOK, isErrorShape]
  · show errRespOK (postMessage f st b).2 = true
    unfold postMessage
    split
    · rfl
    split
    · rfl
    split
    · rfl
    split
    · split
      · rfl
      · rfl
    · rfl
  · show errRespOK (deleteMessageById f st s).2 = true
    unfold deleteMessageById
    split
    · rfl
    split
    · rfl
    split
    · rfl
    · rfl
  · cases f <;> simp [testDb, errRespOK, isErrorShape]

theorem c7_error_shapes_witness :
    isErrorShape (getAllMessages "production" "boom" true store0).body = true :=
  (c7_error_shapes "production" "boom" "t" "v" "1" "/nope" 0 false store0
    (mkStrBody "a" "b" "c") .null .null (by decide)).1

/-- C8 counterexample: POST hides the underlying error in every mode —
in development mode included (its catch block never reads `NODE_ENV`) —
while test-db exposes it in every mode: inclusion of the underlying error
detail is not equivalent to development mode. -/
theorem c8_counterexample :
    ((postMessage true store0 (mkStrBody "Ada" "a@b.com" "hi")).2.status = 500 ∧
     objHasStrVal (postMessage true store0 (mkStrBody "Ada" "a@b.com" "hi")).2.body
       "connection refused" = false) ∧
    ((testDb "connection refused" true "t" "v" 0).status = 500 ∧
     objHasStrVal (testDb "connection refused" true "t" "v" 0).body
       "connection refused" = true) := by decide

/-- C8 (amended): every endpoint maps a storage failure to HTTP 500; the
four message endpoints answer with generic messages, and among them only
GET /api/messages includes the underlying error message, exactly in
development mode; the diagnostic endpoints test-db and check-tables include
the raw error message in every mode (their handlers never read the mode). -/
theorem c8_storage_failure_500 (env errMsg dbTime dbVer s : String) (cnt : Int)
    (st : Store) (tables cols : JSVal)
    (h1 : errMsg ≠ "Internal server error")
    (h2 : errMsg ≠ "Failed to fetch messages")
    (h3 : errMsg ≠ "Failed to fetch message")
    (h4 : errMsg ≠ "Failed to create message")
    (h5 : errMsg ≠ "Failed to delete message") :
    (getAllMessages env errMsg true st).status = 500 ∧
    objHasStrVal (getAllMessages env errMsg true st).body errMsg = (env == "development") ∧
    (getMessageById true st s).status = 500 ∧
    objHasStrVal (getMessageById true st s).body errMsg = false ∧
    (postMessage true st (mkStrBody "Ada" "a@b.com" "hi")).2.status = 500 ∧
    objHasStrVal (postMessage true st (mkStrBody "Ada" "a@b.com" "hi")).2.body errMsg = false ∧
    (deleteMessageById true st s).2.status = 500 ∧
    objHasStrVal (deleteMessageById true st s).2.body errMsg = false ∧
    (testDb errMsg true dbTime dbVer cnt).status = 500 ∧
    objHasStrVal (testDb errMsg true dbTime dbVer cnt).body errMsg = true ∧
    (checkTables errMsg true tables cols).status = 500 ∧
    objHasStrVal (checkTables errMsg true tables cols).body errMsg = true := by
  have h1' : ("Internal server error" == errMsg) = false := beq_eq_false_iff_ne.mpr (Ne.symm h1)
  have h2' : ("Failed to fetch messages" == errMsg) = false := beq_eq_false_iff_ne.mpr (Ne.symm h2)
  have h3' : ("Failed to fetch message" == errMsg) = false := beq_eq_false_iff_ne.mpr (Ne.symm h3)
  have h4' : ("Failed to create message" == errMsg) = false := beq_eq_false_iff_ne.mpr (Ne.symm h4)
  have h5' : ("Failed to delete message" == errMsg) = false := beq_eq_false_iff_ne.mpr (Ne.symm h5)
  refine ⟨rfl, ?_, rfl, ?_, rfl, ?_, rfl, ?_, rfl, ?_, rfl, ?_⟩
  · cases hdev : (env == "development") <;>
      simp [getAllMessages, objHasStrVal, hdev, h1', h2']
  · simp [getMessageById, objHasStrVal, h1', h3']
  · have hb : (postMessage true st (mkStrBody "Ada" "a@b.com" "hi")).2.body =
        .obj [("success", .bool false), ("error", .str "Internal server error"),
              ("message", .str "Failed to create message")] := rfl
    rw [hb]
    simp [objHasStrVal, h1', h4']
  · simp [deleteMessageById, objHasStrVal, h1', h5']
  · simp [testDb, objHasStrVal]
  · simp [checkTables, objHasStrVal]

theorem c8_storage_failure_500_witness :
    (getAllMessages "production" "connection refused" true store0).status = 500 ∧
    objHasStrVal (getAllMessages "production" "connection refused" true store0).body
      "connection refused" = ("production" == "development") :=
  ⟨(c8_storage_failure_500 "production" "connection refused" "t" "v" "1" 0 store0 .null .null
     (by decide) (by decide) (by decide) (by decide) (by decide)).1,
   (c8_storage_failure_500 "production" "connection refused" "t" "v" "1" 0 store0 .null .null
     (by decide) (by decide) (by decide) (by decide) (by decide)).2.1⟩
